import Mathlib

/-!
Shallow embedding of the solar-prototype core: the cosine-law irradiance
model (src/solar/irradiance.js), the panel orientation model
(src/panels/panelModel.js calculatePanelNormal), the multi-sample shadow
sampler (src/solar/shadowAnalysis.js), the per-panel irradiance pipeline
of the placement code (addPanelToScene / updatePanelIrradiance) and the
NOAA-style sun position calculator (src/solar/sunPosition.js).

Real numbers stand for JavaScript numbers. The ray intersection primitive
of the rendering engine (THREE.Raycaster.intersectObjects) is abstracted
as a function argument returning the list of intersection distances,
nearest first, which is exactly the data the analyzed code reads from it.
The axis-aligned bounding-box size that Box3.setFromObject reports for a
panel is carried as an attribute of the mesh record.
-/

noncomputable section

open Classical

/-- A 3D vector (THREE.Vector3). -/
@[ext]
structure Vec3 where
  x : ℝ
  y : ℝ
  z : ℝ

/-- Dot product (THREE.Vector3.dot). -/
def Vec3.dot (a b : Vec3) : ℝ := a.x * b.x + a.y * b.y + a.z * b.z

/-- Cross product (THREE.Vector3.cross). -/
def Vec3.cross (a b : Vec3) : Vec3 :=
  ⟨a.y * b.z - a.z * b.y, a.z * b.x - a.x * b.z, a.x * b.y - a.y * b.x⟩

/-- Euclidean length (THREE.Vector3.length). -/
def Vec3.length (a : Vec3) : ℝ := Real.sqrt (a.x * a.x + a.y * a.y + a.z * a.z)

/-- THREE.Vector3.normalize divides by the length, or by 1 when the length
is 0 (the JavaScript expression divides by `this.length() || 1`). -/
def Vec3.normalize (a : Vec3) : Vec3 :=
  let l := a.length
  let d := if l = 0 then 1 else l
  ⟨a.x / d, a.y / d, a.z / d⟩

/-- THREE.Vector3.applyAxisAngle rotates a vector about a unit axis by an
angle, through the quaternion built from the axis-angle pair; for a unit
axis this is exactly the Rodrigues rotation formula used here. -/
def Vec3.applyAxisAngle (v axis : Vec3) (angle : ℝ) : Vec3 :=
  let c := Real.cos angle
  let s := Real.sin angle
  let k := axis.cross v
  let d := axis.dot v * (1 - c)
  ⟨v.x * c + k.x * s + axis.x * d,
   v.y * c + k.y * s + axis.y * d,
   v.z * c + k.z * s + axis.z * d⟩

/-- A 4x4 matrix (THREE.Matrix4), row major: m14, m24, m34 hold the
translation column of an affine transform. -/
@[ext]
structure Mat4 where
  m11 : ℝ
  m12 : ℝ
  m13 : ℝ
  m14 : ℝ
  m21 : ℝ
  m22 : ℝ
  m23 : ℝ
  m24 : ℝ
  m31 : ℝ
  m32 : ℝ
  m33 : ℝ
  m34 : ℝ
  m41 : ℝ
  m42 : ℝ
  m43 : ℝ
  m44 : ℝ

/-- THREE.Vector3.applyMatrix4: full projective application, dividing by
the resulting homogeneous coordinate. -/
def Vec3.applyMatrix4 (v : Vec3) (m : Mat4) : Vec3 :=
  let w := m.m41 * v.x + m.m42 * v.y + m.m43 * v.z + m.m44
  ⟨(m.m11 * v.x + m.m12 * v.y + m.m13 * v.z + m.m14) / w,
   (m.m21 * v.x + m.m22 * v.y + m.m23 * v.z + m.m24) / w,
   (m.m31 * v.x + m.m32 * v.y + m.m33 * v.z + m.m34) / w⟩

/-- THREE.Vector3.transformDirection: apply the upper 3x3 block of the
matrix, then normalize. -/
def Vec3.transformDirection (v : Vec3) (m : Mat4) : Vec3 :=
  Vec3.normalize
    ⟨m.m11 * v.x + m.m12 * v.y + m.m13 * v.z,
     m.m21 * v.x + m.m22 * v.y + m.m23 * v.z,
     m.m31 * v.x + m.m32 * v.y + m.m33 * v.z⟩

/-- The rotation-and-scale 3x3 block of a local object transform. -/
@[ext]
structure Mat3 where
  r11 : ℝ
  r12 : ℝ
  r13 : ℝ
  r21 : ℝ
  r22 : ℝ
  r23 : ℝ
  r31 : ℝ
  r32 : ℝ
  r33 : ℝ

/-- The slice of a THREE.Mesh that the analyzed core reads: the local
transform (position plus rotation-scale block, from which
updateMatrixWorld recomposes the world matrix), the cached world matrix,
the bounding-box size reported for the panel, and the userData fields the
solar code uses (the stored orientation normal and the id of the roof mesh
the panel sits on). -/
structure Mesh where
  position : Vec3
  rotationScale : Mat3
  matrixWorld : Mat4
  bboxSize : Vec3
  userData_normal : Option Vec3
  userData_roofMesh : Option Nat

/-- THREE.Object3D.updateMatrix composes the local matrix from position
and the rotation-scale block. -/
def Mesh.composedMatrix (m : Mesh) : Mat4 :=
  ⟨m.rotationScale.r11, m.rotationScale.r12, m.rotationScale.r13, m.position.x,
   m.rotationScale.r21, m.rotationScale.r22, m.rotationScale.r23, m.position.y,
   m.rotationScale.r31, m.rotationScale.r32, m.rotationScale.r33, m.position.z,
   0, 0, 0, 1⟩

/-- panelMesh.updateMatrixWorld(true) on a parentless mesh: overwrites the
cached matrixWorld field with the recomposed local transform. This is the
one write the shadow sampler performs on its panelMesh argument. -/
def Mesh.updateMatrixWorld (m : Mesh) : Mesh :=
  { m with matrixWorld := m.composedMatrix }

/-- src/solar/irradiance.js calcIrradiance: the dot product of the sun
direction and the surface normal, clamped to the interval from 0 to 1
(Math.max(0, Math.min(1, dot))). -/
def calcIrradiance (sunDir surfaceNormal : Vec3) : ℝ :=
  let dot := sunDir.dot surfaceNormal
  max 0 (min 1 dot)

/-- src/solar/irradiance.js calcPanelIrradiance: uses the stored
userData.normal of the panel, falling back to the flat upward normal
(0, 0, 1) when it is absent. -/
def calcPanelIrradiance (panelMesh : Mesh) (sunVec : Vec3) : ℝ :=
  match panelMesh.userData_normal with
  | none => calcIrradiance sunVec ⟨0, 0, 1⟩
  | some n => calcIrradiance sunVec n

/-- src/panels/panelModel.js calculatePanelNormal(tilt, azimuth): start
from the upward normal, rotate by minus the tilt (in radians) about the X
axis, then by (90 - azimuth) degrees (in radians) about the Z axis, and
normalize. -/
def calculatePanelNormal (tilt azimuth : ℝ) : Vec3 :=
  let normal : Vec3 := ⟨0, 0, 1⟩
  let tiltRad := tilt * Real.pi / 180
  let threeJsAzRad := (90 - azimuth) * Real.pi / 180
  let n1 := normal.applyAxisAngle ⟨1, 0, 0⟩ (-tiltRad)
  let n2 := n1.applyAxisAngle ⟨0, 0, 1⟩ threeJsAzRad
  n2.normalize

/-- src/solar/irradiance.js calcPanelIrradianceFromOrientation: inlines
the same rotation sequence as calculatePanelNormal and feeds the result to
calcIrradiance. -/
def calcPanelIrradianceFromOrientation (tilt azimuth : ℝ) (sunVec : Vec3) : ℝ :=
  let normal : Vec3 := ⟨0, 0, 1⟩
  let tiltRad := tilt * Real.pi / 180
  let threeJsAzRad := (90 - azimuth) * Real.pi / 180
  let n1 := normal.applyAxisAngle ⟨1, 0, 0⟩ (-tiltRad)
  let n2 := n1.applyAxisAngle ⟨0, 0, 1⟩ threeJsAzRad
  calcIrradiance sunVec n2.normalize

/-- A building record as passed to the shadow code: the placement code
hands over objects exposing a mesh; only the identity of the mesh matters
to the core, so it is carried as a number. -/
structure BuildingRec where
  mesh : Nat

/-- The ray intersection primitive supplied by the rendering engine
(THREE.Raycaster.intersectObjects): for a ray origin, a ray direction and
a list of meshes it yields the intersection distances, nearest first. The
core only reads this list. -/
abbrev CastRay : Type := Vec3 → Vec3 → List Nat → List ℝ

/-- src/solar/shadowAnalysis.js isPointInShadow: cast a ray from the point
toward the sun against the building meshes; the point is shadowed exactly
when the nearest intersection distance lies strictly between 0.5 and
maxDistance (default 1000). -/
def isPointInShadow (castRay : CastRay) (point sunVec : Vec3)
    (buildingMeshes : List BuildingRec) (maxDistance : ℝ := 1000) : Bool :=
  match castRay point sunVec (buildingMeshes.map fun r => r.mesh) with
  | [] => false
  | d :: _ => if 0.5 < d ∧ d < maxDistance then true else false

/-- The local sample points generated by calculatePanelShadowFactor: the
center for samplePoints = 1; the four quadrant points at plus or minus
(0.4 times the extent) for samplePoints = 4; otherwise a square grid of
ceil(sqrt(samplePoints)) by ceil(sqrt(samplePoints)) points spanning 80
percent of each extent. Every sample is offset by 60 percent of the box
height above the surface. -/
def panelLocalSamples (samplePoints : Nat) (size : Vec3) : List Vec3 :=
  let offsetZ := size.z * 0.6
  if samplePoints = 1 then
    [⟨0, 0, offsetZ⟩]
  else if samplePoints = 4 then
    let halfX := size.x * 0.4
    let halfY := size.y * 0.4
    [⟨-halfX, -halfY, offsetZ⟩, ⟨halfX, -halfY, offsetZ⟩,
     ⟨-halfX, halfY, offsetZ⟩, ⟨halfX, halfY, offsetZ⟩]
  else
    let gridSize := ⌈Real.sqrt (samplePoints : ℝ)⌉₊
    (List.range gridSize).flatMap fun i =>
      (List.range gridSize).map fun j =>
        ⟨((i : ℝ) / ((gridSize : ℝ) - 1) - 0.5) * size.x * 0.8,
         ((j : ℝ) / ((gridSize : ℝ) - 1) - 0.5) * size.y * 0.8,
         offsetZ⟩

/-- The world-space sample points of calculatePanelShadowFactor: the local
samples of the (matrix-refreshed) panel, pushed through its world
matrix. -/
def panelWorldSamples (panelMesh : Mesh) (samplePoints : Nat) : List Vec3 :=
  let pm := panelMesh.updateMatrixWorld
  (panelLocalSamples samplePoints pm.bboxSize).map fun p => p.applyMatrix4 pm.matrixWorld

/-- The occluder set actually tested: when an excluded mesh is given
(the roof the panel sits on), it is filtered out. -/
def meshesToCheck (buildingMeshes : List BuildingRec) (excludeMesh : Option Nat) :
    List BuildingRec :=
  match excludeMesh with
  | some ex => buildingMeshes.filter fun r => r.mesh != ex
  | none => buildingMeshes

/-- The number of shadowed sample points counted by
calculatePanelShadowFactor. -/
def panelShadowedCount (castRay : CastRay) (panelMesh : Mesh) (sunVec : Vec3)
    (buildingMeshes : List BuildingRec) (samplePoints : Nat) (excludeMesh : Option Nat) : Nat :=
  (panelWorldSamples panelMesh samplePoints).countP fun p =>
    isPointInShadow castRay p sunVec (meshesToCheck buildingMeshes excludeMesh)

/-- src/solar/shadowAnalysis.js calculatePanelShadowFactor: refresh the
world matrix of the panel, sample its surface, count the shadowed samples
and return 1 - shadowedCount / samples.length. -/
def calculatePanelShadowFactor (castRay : CastRay) (panelMesh : Mesh) (sunVec : Vec3)
    (buildingMeshes : List BuildingRec) (samplePoints : Nat := 4)
    (excludeMesh : Option Nat := none) : ℝ :=
  1 - (panelShadowedCount castRay panelMesh sunVec buildingMeshes samplePoints excludeMesh : ℝ)
      / ((panelWorldSamples panelMesh samplePoints).length : ℝ)

/-- calculatePanelShadowFactor together with the post-call state of its
panelMesh argument: the only write the call performs on the mesh is
panelMesh.updateMatrixWorld(true). -/
def calculatePanelShadowFactorRun (castRay : CastRay) (panelMesh : Mesh) (sunVec : Vec3)
    (buildingMeshes : List BuildingRec) (samplePoints : Nat := 4)
    (excludeMesh : Option Nat := none) : ℝ × Mesh :=
  (calculatePanelShadowFactor castRay panelMesh sunVec buildingMeshes samplePoints excludeMesh,
   panelMesh.updateMatrixWorld)

/-- The shadow classification the placement code derives from the shadow
factor: below 0.5 SHADOWED, below 1 PARTIAL, otherwise CLEAR. -/
def shadowStatusOf (shadowFactor : ℝ) : String :=
  if shadowFactor < 0.5 then "SHADOWED"
  else if shadowFactor < 1 then "PARTIAL"
  else "CLEAR"

/-- The per-panel evaluation performed by addPanelToScene and repeated by
updatePanelIrradiance in src/panels/placement.js: refresh the world
matrix, read the world-space normal of the panel, apply the cosine law,
then scale by the 4-sample shadow factor with the supporting roof
excluded. Returns (clearSkyIrradiance, shadowFactor,
effectiveIrradiance). -/
def panelIrradiancePipeline (castRay : CastRay) (panel : Mesh) (sunVec : Vec3)
    (roofMeshes : List BuildingRec) : ℝ × ℝ × ℝ :=
  let p := panel.updateMatrixWorld
  let worldNormal := (Vec3.transformDirection ⟨0, 0, 1⟩ p.matrixWorld).normalize
  let irradiance := calcIrradiance sunVec worldNormal
  let shadowFactor :=
    calculatePanelShadowFactor castRay p sunVec roofMeshes 4 p.userData_roofMesh
  (irradiance, shadowFactor, irradiance * shadowFactor)

/-- src/solar/sunPosition.js getSunPosition, day-of-year step: the N1, N2,
N3 formula applied to the UTC calendar date. Math.floor is the integer
floor. -/
def dayOfYear (year month day : ℤ) : ℤ :=
  let N1 := ⌊(275 * (month : ℝ)) / 9⌋
  let N2 := ⌊((month : ℝ) + 9) / 12⌋
  let N3 := 1 + ⌊((year : ℝ) - 4 * ((⌊(year : ℝ) / 4⌋ : ℤ) : ℝ) + 2) / 3⌋
  N1 - N2 * N3 + day - 30

/-- Fractional year angle gamma, in radians. -/
def gammaOf (N : ℤ) (hour : ℝ) : ℝ :=
  2 * Real.pi / 365 * ((N : ℝ) - 1 + (hour - 12) / 24)

/-- Equation of time, in minutes: truncated Fourier series in gamma. -/
def eqtimeOf (gamma : ℝ) : ℝ :=
  229.18 * (0.000075 + 0.001868 * Real.cos gamma - 0.032077 * Real.sin gamma
    - 0.014615 * Real.cos (2 * gamma) - 0.040849 * Real.sin (2 * gamma))

/-- Solar declination, in radians: truncated Fourier series in gamma. -/
def declOf (gamma : ℝ) : ℝ :=
  0.006918 - 0.399912 * Real.cos gamma + 0.070257 * Real.sin gamma
    - 0.006758 * Real.cos (2 * gamma) + 0.000907 * Real.sin (2 * gamma)
    - 0.002697 * Real.cos (3 * gamma) + 0.00148 * Real.sin (3 * gamma)

/-- Hour angle in radians, from the true solar time. -/
def hourAngleOf (hour lon gamma : ℝ) : ℝ :=
  let timeOffset := eqtimeOf gamma + 4 * lon
  let tst := hour * 60 + timeOffset
  (tst / 4 - 180) * (Real.pi / 180)

/-- Solar zenith angle, by the spherical law of cosines. -/
def zenithOf (lat decl ha : ℝ) : ℝ :=
  let latRad := lat * (Real.pi / 180)
  Real.arccos (Real.sin latRad * Real.sin decl
    + Real.cos latRad * Real.cos decl * Real.cos ha)

/-- Numerator of the azimuth division in getSunPosition. -/
def azimuthNumer (lat decl zenith : ℝ) : ℝ :=
  Real.sin decl - Real.sin (lat * (Real.pi / 180)) * Real.cos zenith

/-- Denominator of the azimuth division in getSunPosition:
cos(latRad) * sin(zenith). -/
def azimuthDenom (lat zenith : ℝ) : ℝ :=
  Real.cos (lat * (Real.pi / 180)) * Real.sin zenith

/-- getSunPosition azimuth: acos of the unguarded quotient, converted to
degrees and mirrored to 360 minus itself in the afternoon (hour angle
positive). The source contains no guard on the division. -/
def azimuthOf (lat decl zenith ha : ℝ) : ℝ :=
  let az := Real.arccos (azimuthNumer lat decl zenith / azimuthDenom lat zenith)
    / (Real.pi / 180)
  if ha > 0 then 360 - az else az

/-- src/solar/sunPosition.js getSunPosition, on the UTC date parts and the
fractional hour: returns (azimuth, elevation), both in degrees. -/
def getSunPosition (year month day : ℤ) (hour lat lon : ℝ) : ℝ × ℝ :=
  let N := dayOfYear year month day
  let gamma := gammaOf N hour
  let decl := declOf gamma
  let ha := hourAngleOf hour lon gamma
  let zenith := zenithOf lat decl ha
  let elevation := 90 - zenith / (Real.pi / 180)
  (azimuthOf lat decl zenith ha, elevation)

/-- Identity rotation-scale block, used by the concrete example meshes. -/
def idMat3 : Mat3 := ⟨1, 0, 0, 0, 1, 0, 0, 0, 1⟩

/-- Identity world matrix, used by the concrete example meshes. -/
def idMat4 : Mat4 := ⟨1, 0, 0, 0, 0, 1, 0, 0, 0, 0, 1, 0, 0, 0, 0, 1⟩

/-- A ray caster that always reports one hit at distance 1, within the
shadow window (0.5, 1000). -/
def castRayHit : CastRay := fun _ _ _ => [1]

/-- A unit-box panel mesh at the origin with an up-to-date world
matrix. -/
def meshUnit : Mesh := ⟨⟨0, 0, 0⟩, idMat3, idMat4, ⟨1, 1, 1⟩, none, none⟩

/-- A panel mesh whose cached world matrix is stale: its position is
(1, 2, 3) but the cached matrix is still the identity. -/
def meshStale : Mesh := ⟨⟨1, 2, 3⟩, idMat3, idMat4, ⟨1, 1, 1⟩, none, none⟩

/-- A panel mesh with a degenerate, zero-extent bounding box. -/
def meshZeroExtent : Mesh := ⟨⟨0, 0, 0⟩, idMat3, idMat4, ⟨0, 0, 0⟩, none, none⟩

/-- An upward sun direction. -/
def sunUp : Vec3 := ⟨0, 0, 1⟩

/-- A concrete building record. -/
def bRec5 : BuildingRec := ⟨5⟩

/-! Theorems. -/

/-- C1: calcIrradiance clamps the dot product of its inputs to the unit
interval: the result is always in [0, 1], equals exactly 1 when the sun
direction equals the (unit) surface normal, and equals exactly 0 whenever
the dot product is nonpositive. -/
theorem calcIrradiance_clamp_spec (sunDir surfaceNormal : Vec3) :
    calcIrradiance sunDir surfaceNormal = max 0 (min 1 (sunDir.dot surfaceNormal))
    ∧ 0 ≤ calcIrradiance sunDir surfaceNormal
    ∧ calcIrradiance sunDir surfaceNormal ≤ 1
    ∧ (sunDir = surfaceNormal → surfaceNormal.dot surfaceNormal = 1 →
        calcIrradiance sunDir surfaceNormal = 1)
    ∧ (sunDir.dot surfaceNormal ≤ 0 → calcIrradiance sunDir surfaceNormal = 0) := by
  refine ⟨rfl, le_max_left _ _, ?_, ?_, ?_⟩
  · exact max_le (by norm_num) (min_le_left _ _)
  · rintro rfl h
    simp [calcIrradiance, h]
  · intro h
    have h1 : min 1 (sunDir.dot surfaceNormal) = sunDir.dot surfaceNormal :=
      min_eq_right (le_trans h (by norm_num))
    show max 0 (min 1 (sunDir.dot surfaceNormal)) = 0
    rw [h1, max_eq_left h]

/-- Witness for C1 at concrete inputs: the value is exactly 1 for equal
unit vectors and exactly 0 for a nonpositive dot product. -/
theorem calcIrradiance_clamp_spec_witness :
    calcIrradiance ⟨0, 0, 1⟩ ⟨0, 0, 1⟩ = 1 ∧ calcIrradiance ⟨1, 0, 0⟩ ⟨0, 0, 1⟩ = 0 :=
  ⟨(calcIrradiance_clamp_spec ⟨0, 0, 1⟩ ⟨0, 0, 1⟩).2.2.2.1 rfl (by norm_num [Vec3.dot]),
   (calcIrradiance_clamp_spec ⟨1, 0, 0⟩ ⟨0, 0, 1⟩).2.2.2.2 (by norm_num [Vec3.dot])⟩

/-- C10: when the stored orientation normal of a panel mesh is absent,
calcPanelIrradiance falls back to the flat upward normal (0, 0, 1). -/
theorem calcPanelIrradiance_missing_normal (panelMesh : Mesh) (sunVec : Vec3)
    (h : panelMesh.userData_normal = none) :
    calcPanelIrradiance panelMesh sunVec = calcIrradiance sunVec ⟨0, 0, 1⟩ := by
  unfold calcPanelIrradiance
  rw [h]

/-- Witness for C10: a concrete mesh with no stored normal. -/
theorem calcPanelIrradiance_missing_normal_witness :
    calcPanelIrradiance meshUnit sunUp = calcIrradiance sunUp ⟨0, 0, 1⟩ :=
  calcPanelIrradiance_missing_normal meshUnit sunUp rfl

/-- Rotating any vector about any axis by the angle 0 leaves it
unchanged. -/
theorem applyAxisAngle_zero (v axis : Vec3) : Vec3.applyAxisAngle v axis 0 = v := by
  ext
  all_goals simp only [Vec3.applyAxisAngle, Vec3.cross, Vec3.dot, Real.cos_zero, Real.sin_zero]
  all_goals ring

/-- Rotating the up vector about the Z axis leaves it unchanged, for every
angle. -/
theorem applyAxisAngle_up_zAxis (θ : ℝ) :
    Vec3.applyAxisAngle ⟨0, 0, 1⟩ ⟨0, 0, 1⟩ θ = ⟨0, 0, 1⟩ := by
  simp only [Vec3.applyAxisAngle, Vec3.cross, Vec3.dot, Vec3.mk.injEq]
  refine ⟨by ring, by ring, by ring⟩

/-- The up vector is already normalized. -/
theorem normalize_up : Vec3.normalize ⟨0, 0, 1⟩ = ⟨0, 0, 1⟩ := by
  simp [Vec3.normalize, Vec3.length]

/-- C5: with tilt 0 the computed panel normal is the vertical up vector
for every azimuth, and the orientation-based irradiance is the flat-panel
irradiance, for every sun vector. -/
theorem calculatePanelNormal_tilt_zero (azimuth : ℝ) (sunVec : Vec3) :
    calculatePanelNormal 0 azimuth = ⟨0, 0, 1⟩
    ∧ calcPanelIrradianceFromOrientation 0 azimuth sunVec
        = calcIrradiance sunVec ⟨0, 0, 1⟩ := by
  have h0 : (-(0 * Real.pi / 180) : ℝ) = 0 := by ring
  constructor
  · simp only [calculatePanelNormal]
    rw [h0, applyAxisAngle_zero, applyAxisAngle_up_zAxis, normalize_up]
  · simp only [calcPanelIrradianceFromOrientation]
    rw [h0, applyAxisAngle_zero, applyAxisAngle_up_zAxis, normalize_up]

/-- Tilting the up vector by minus 90 degrees about the X axis yields the
north vector. -/
theorem applyAxisAngle_up_xAxis_neg_half_pi :
    Vec3.applyAxisAngle ⟨0, 0, 1⟩ ⟨1, 0, 0⟩ (-(Real.pi / 2)) = ⟨0, 1, 0⟩ := by
  simp only [Vec3.applyAxisAngle, Vec3.cross, Vec3.dot, Real.cos_neg, Real.sin_neg,
    Real.cos_pi_div_two, Real.sin_pi_div_two, Vec3.mk.injEq]
  refine ⟨by ring, by ring, by ring⟩

/-- Rotating the north vector by minus 90 degrees about the Z axis yields
the east vector. -/
theorem applyAxisAngle_north_zAxis_neg_half_pi :
    Vec3.applyAxisAngle ⟨0, 1, 0⟩ ⟨0, 0, 1⟩ (-(Real.pi / 2)) = ⟨1, 0, 0⟩ := by
  simp only [Vec3.applyAxisAngle, Vec3.cross, Vec3.dot, Real.cos_neg, Real.sin_neg,
    Real.cos_pi_div_two, Real.sin_pi_div_two, Vec3.mk.injEq]
  refine ⟨by ring, by ring, by ring⟩

/-- The east vector is already normalized. -/
theorem normalize_east : Vec3.normalize ⟨1, 0, 0⟩ = ⟨1, 0, 0⟩ := by
  simp [Vec3.normalize, Vec3.length]

/-- C6 (code bug exhibit): calculatePanelNormal at tilt 90 and azimuth 180
returns the due-east unit vector (1, 0, 0) in the scene frame where
+Y = North and +X = East, not the due-south vector (0, -1, 0) that its own
documentation (azimuth 180 = South) and the specification call for. -/
theorem calculatePanelNormal_90_180_east :
    calculatePanelNormal 90 180 = ⟨1, 0, 0⟩
    ∧ calculatePanelNormal 90 180 ≠ ⟨0, -1, 0⟩ := by
  have he : calculatePanelNormal 90 180 = ⟨1, 0, 0⟩ := by
    have h1 : ((90 : ℝ) * Real.pi / 180) = Real.pi / 2 := by ring
    have h2 : (((90 : ℝ) - 180) * Real.pi / 180) = -(Real.pi / 2) := by ring
    simp only [calculatePanelNormal]
    rw [h1, h2, applyAxisAngle_up_xAxis_neg_half_pi,
      applyAxisAngle_north_zAxis_neg_half_pi, normalize_east]
  refine ⟨he, ?_⟩
  rw [he]
  intro h
  have hx := congrArg Vec3.x h
  norm_num at hx

/-- C7 (code bug exhibit): at the north pole the denominator of the
azimuth division inside getSunPosition is exactly zero for every date,
hour and longitude; azimuthOf divides by it with no guard, so the code
contains no defined fallback azimuth for the degenerate case. -/
theorem getSunPosition_pole_denominator_zero (year month day : ℤ) (hour lon : ℝ) :
    azimuthDenom 90 (zenithOf 90 (declOf (gammaOf (dayOfYear year month day) hour))
      (hourAngleOf hour lon (gammaOf (dayOfYear year month day) hour))) = 0 := by
  unfold azimuthDenom
  have h : ((90 : ℝ) * (Real.pi / 180)) = Real.pi / 2 := by ring
  rw [h, Real.cos_pi_div_two, zero_mul]

/-- Length of the generated local sample list, branch by branch. -/
theorem panelLocalSamples_length (samplePoints : Nat) (size : Vec3) :
    (panelLocalSamples samplePoints size).length
      = if samplePoints = 1 then 1 else if samplePoints = 4 then 4
        else (⌈Real.sqrt (samplePoints : ℝ)⌉₊) ^ 2 := by
  unfold panelLocalSamples
  by_cases h1 : samplePoints = 1
  · simp [h1]
  · by_cases h4 : samplePoints = 4
    · simp [h1, h4]
    · simp only [h1, h4, if_false]
      rw [List.length_flatMap]
      simp [Function.comp_def, List.map_const', List.sum_replicate, smul_eq_mul, sq]

/-- For a requested sample count of at least 1, at least one sample point
is generated. -/
theorem panelLocalSamples_length_pos (samplePoints : Nat) (size : Vec3)
    (h : 1 ≤ samplePoints) : 1 ≤ (panelLocalSamples samplePoints size).length := by
  rw [panelLocalSamples_length]
  by_cases h1 : samplePoints = 1
  · simp [h1]
  · by_cases h4 : samplePoints = 4
    · simp [h1, h4]
    · simp only [h1, h4, if_false]
      have hpos : 0 < Real.sqrt (samplePoints : ℝ) := by
        apply Real.sqrt_pos.mpr
        exact_mod_cast Nat.lt_of_lt_of_le Nat.zero_lt_one h
      have hceil : 1 ≤ ⌈Real.sqrt (samplePoints : ℝ)⌉₊ := Nat.one_le_ceil_iff.mpr hpos
      calc 1 = 1 ^ 2 := by norm_num
        _ ≤ (⌈Real.sqrt (samplePoints : ℝ)⌉₊) ^ 2 := Nat.pow_le_pow_left hceil 2

/-- The world sample list has the same length as the local one. -/
theorem panelWorldSamples_length (panelMesh : Mesh) (samplePoints : Nat) :
    (panelWorldSamples panelMesh samplePoints).length
      = (panelLocalSamples samplePoints (panelMesh.updateMatrixWorld).bboxSize).length := by
  simp [panelWorldSamples]

/-- The shadow factor always lies in the unit interval. -/
theorem calculatePanelShadowFactor_mem_unit (castRay : CastRay) (panelMesh : Mesh)
    (sunVec : Vec3) (buildingMeshes : List BuildingRec) (samplePoints : Nat)
    (excludeMesh : Option Nat) :
    0 ≤ calculatePanelShadowFactor castRay panelMesh sunVec buildingMeshes samplePoints
        excludeMesh
    ∧ calculatePanelShadowFactor castRay panelMesh sunVec buildingMeshes samplePoints
        excludeMesh ≤ 1 := by
  unfold calculatePanelShadowFactor
  have hcle : panelShadowedCount castRay panelMesh sunVec buildingMeshes samplePoints
      excludeMesh ≤ (panelWorldSamples panelMesh samplePoints).length :=
    List.countP_le_length _
  constructor
  · rcases Nat.eq_zero_or_pos (panelWorldSamples panelMesh samplePoints).length with h0 | hpos
    · have hc0 : panelShadowedCount castRay panelMesh sunVec buildingMeshes samplePoints
          excludeMesh = 0 := Nat.le_zero.mp (h0 ▸ hcle)
      rw [hc0, h0]
      norm_num
    · have hdiv : (panelShadowedCount castRay panelMesh sunVec buildingMeshes samplePoints
            excludeMesh : ℝ) / ((panelWorldSamples panelMesh samplePoints).length : ℝ) ≤ 1 := by
        rw [div_le_one (by exact_mod_cast hpos)]
        exact_mod_cast hcle
      linarith
  · have hnn : 0 ≤ (panelShadowedCount castRay panelMesh sunVec buildingMeshes samplePoints
          excludeMesh : ℝ) / ((panelWorldSamples panelMesh samplePoints).length : ℝ) :=
      div_nonneg (Nat.cast_nonneg _) (Nat.cast_nonneg _)
    linarith

/-- C4: a single-sample shadow query returns exactly 0 or exactly 1,
never a strictly fractional value. -/
theorem singleSample_shadowFactor_binary (castRay : CastRay) (panelMesh : Mesh)
    (sunVec : Vec3) (buildingMeshes : List BuildingRec) (excludeMesh : Option Nat) :
    calculatePanelShadowFactor castRay panelMesh sunVec buildingMeshes 1 excludeMesh = 0
    ∨ calculatePanelShadowFactor castRay panelMesh sunVec buildingMeshes 1 excludeMesh = 1 := by
  have hloc : panelLocalSamples 1 (panelMesh.updateMatrixWorld).bboxSize
      = [⟨0, 0, (panelMesh.updateMatrixWorld).bboxSize.z * 0.6⟩] := by
    simp [panelLocalSamples]
  have hw : panelWorldSamples panelMesh 1
      = [Vec3.applyMatrix4 ⟨0, 0, (panelMesh.updateMatrixWorld).bboxSize.z * 0.6⟩
          (panelMesh.updateMatrixWorld).matrixWorld] := by
    simp only [panelWorldSamples]
    rw [hloc]
    simp
  cases hb : isPointInShadow castRay
      (Vec3.applyMatrix4 ⟨0, 0, (panelMesh.updateMatrixWorld).bboxSize.z * 0.6⟩
        (panelMesh.updateMatrixWorld).matrixWorld) sunVec
      (meshesToCheck buildingMeshes excludeMesh) with
  | false =>
    right
    unfold calculatePanelShadowFactor panelShadowedCount
    rw [hw]
    simp [hb]
  | true =>
    left
    unfold calculatePanelShadowFactor panelShadowedCount
    rw [hw]
    simp [hb]

/-- C8 amended: for every requested sample count of at least 1 and every
surface geometry, zero extent included, the sampler generates at least one
sample point, so the divisor of the returned fraction is positive and the
result is a well-defined number in [0, 1]. -/
theorem shadowSampler_no_zero_division (castRay : CastRay) (panelMesh : Mesh)
    (sunVec : Vec3) (buildingMeshes : List BuildingRec) (samplePoints : Nat)
    (excludeMesh : Option Nat) (h : 1 ≤ samplePoints) :
    1 ≤ (panelWorldSamples panelMesh samplePoints).length
    ∧ 0 ≤ calculatePanelShadowFactor castRay panelMesh sunVec buildingMeshes samplePoints
        excludeMesh
    ∧ calculatePanelShadowFactor castRay panelMesh sunVec buildingMeshes samplePoints
        excludeMesh ≤ 1 := by
  refine ⟨?_,
    (calculatePanelShadowFactor_mem_unit castRay panelMesh sunVec buildingMeshes samplePoints
      excludeMesh).1,
    (calculatePanelShadowFactor_mem_unit castRay panelMesh sunVec buildingMeshes samplePoints
      excludeMesh).2⟩
  rw [panelWorldSamples_length]
  exact panelLocalSamples_length_pos _ _ h

/-- Witness for the amended C8, on a degenerate zero-extent surface with
the default 4-sample request. -/
theorem shadowSampler_no_zero_division_witness :
    1 ≤ (panelWorldSamples meshZeroExtent 4).length
    ∧ 0 ≤ calculatePanelShadowFactor castRayHit meshZeroExtent sunUp [bRec5] 4 none
    ∧ calculatePanelShadowFactor castRayHit meshZeroExtent sunUp [bRec5] 4 none ≤ 1 :=
  shadowSampler_no_zero_division castRayHit meshZeroExtent sunUp [bRec5] 4 none (by norm_num)

/-- C8 counterexample: with a requested sample count of 0 (a nonnegative
value) the sampler generates no sample points at all, so the division in
calculatePanelShadowFactor is by a zero sample count. -/
theorem shadowSampler_zero_samples_cex :
    ¬ (1 ≤ (panelWorldSamples meshUnit 0).length) := by
  simp [panelWorldSamples, panelLocalSamples]

/-- C3 amended: for every requested sample count of at least 1 the
sampler returns 1 minus the shadowed count divided by the number of
GENERATED samples, which is 1 for a request of 1, 4 for a request of 4,
and the square of ceil(sqrt(sampleCount)) otherwise; the result lies in
[0, 1]. -/
theorem shadowFactor_formula (castRay : CastRay) (panelMesh : Mesh) (sunVec : Vec3)
    (buildingMeshes : List BuildingRec) (samplePoints : Nat) (excludeMesh : Option Nat)
    (h : 1 ≤ samplePoints) :
    calculatePanelShadowFactor castRay panelMesh sunVec buildingMeshes samplePoints excludeMesh
      = 1 - (panelShadowedCount castRay panelMesh sunVec buildingMeshes samplePoints
            excludeMesh : ℝ)
          / ((panelWorldSamples panelMesh samplePoints).length : ℝ)
    ∧ (panelWorldSamples panelMesh samplePoints).length
      = (if samplePoints = 1 then 1 else if samplePoints = 4 then 4
          else (⌈Real.sqrt (samplePoints : ℝ)⌉₊) ^ 2)
    ∧ 1 ≤ (panelWorldSamples panelMesh samplePoints).length
    ∧ 0 ≤ calculatePanelShadowFactor castRay panelMesh sunVec buildingMeshes samplePoints
        excludeMesh
    ∧ calculatePanelShadowFactor castRay panelMesh sunVec buildingMeshes samplePoints
        excludeMesh ≤ 1 := by
  refine ⟨rfl, ?_, ?_,
    (calculatePanelShadowFactor_mem_unit castRay panelMesh sunVec buildingMeshes samplePoints
      excludeMesh).1,
    (calculatePanelShadowFactor_mem_unit castRay panelMesh sunVec buildingMeshes samplePoints
      excludeMesh).2⟩
  · rw [panelWorldSamples_length, panelLocalSamples_length]
  · rw [panelWorldSamples_length]
    exact panelLocalSamples_length_pos _ _ h

/-- Witness for the amended C3, at the single-sample request on a
concrete scene. -/
theorem shadowFactor_formula_witness :
    calculatePanelShadowFactor castRayHit meshUnit sunUp [bRec5] 1 none
      = 1 - (panelShadowedCount castRayHit meshUnit sunUp [bRec5] 1 none : ℝ)
          / ((panelWorldSamples meshUnit 1).length : ℝ)
    ∧ (panelWorldSamples meshUnit 1).length
      = (if 1 = 1 then 1 else if 1 = 4 then 4 else (⌈Real.sqrt ((1 : Nat) : ℝ)⌉₊) ^ 2)
    ∧ 1 ≤ (panelWorldSamples meshUnit 1).length
    ∧ 0 ≤ calculatePanelShadowFactor castRayHit meshUnit sunUp [bRec5] 1 none
    ∧ calculatePanelShadowFactor castRayHit meshUnit sunUp [bRec5] 1 none ≤ 1 :=
  shadowFactor_formula castRayHit meshUnit sunUp [bRec5] 1 none (by norm_num)

/-- The ceiling of the square root of 2 is 2. -/
theorem ceil_sqrt_two : ⌈Real.sqrt 2⌉₊ = 2 := by
  have hsq := Real.sq_sqrt (show (0 : ℝ) ≤ 2 by norm_num)
  have hnn := Real.sqrt_nonneg 2
  rw [Nat.ceil_eq_iff (by norm_num)]
  constructor
  · push_cast
    nlinarith
  · push_cast
    nlinarith

/-- The grid branch at a requested count of 2 generates the 4 grid points
spanning 80 percent of each extent of the unit box. -/
theorem panelLocalSamples_two :
    panelLocalSamples 2 ⟨1, 1, 1⟩
      = [⟨-0.4, -0.4, 0.6⟩, ⟨-0.4, 0.4, 0.6⟩, ⟨0.4, -0.4, 0.6⟩, ⟨0.4, 0.4, 0.6⟩] := by
  unfold panelLocalSamples
  norm_num [ceil_sqrt_two, List.range_succ, Vec3.mk.injEq]

/-- The world samples of the unit mesh at a requested count of 2: the
identity world transform leaves the 4 grid points in place. -/
theorem meshUnit_world_two :
    panelWorldSamples meshUnit 2
      = [⟨-0.4, -0.4, 0.6⟩, ⟨-0.4, 0.4, 0.6⟩, ⟨0.4, -0.4, 0.6⟩, ⟨0.4, 0.4, 0.6⟩] := by
  have hb : (meshUnit.updateMatrixWorld).bboxSize = ⟨1, 1, 1⟩ := rfl
  simp only [panelWorldSamples, hb, panelLocalSamples_two]
  norm_num [Vec3.applyMatrix4, Mesh.updateMatrixWorld, Mesh.composedMatrix, meshUnit,
    idMat3, idMat4, Vec3.mk.injEq]

/-- Under the always-hit ray caster every one of the 4 generated samples
of the unit mesh is shadowed. -/
theorem meshUnit_count_two :
    panelShadowedCount castRayHit meshUnit sunUp [bRec5] 2 none = 4 := by
  unfold panelShadowedCount
  rw [meshUnit_world_two]
  norm_num [isPointInShadow, castRayHit, meshesToCheck, List.countP_cons]

/-- C3 counterexample: with a requested sample count of 2 the sampler
generates 4 grid samples; with every sample shadowed it returns 0, while
the claimed formula 1 - shadowedSampleCount / sampleCount would give -1
at the same input. -/
theorem shadowFactor_formula_cex :
    calculatePanelShadowFactor castRayHit meshUnit sunUp [bRec5] 2 none
      ≠ 1 - (panelShadowedCount castRayHit meshUnit sunUp [bRec5] 2 none : ℝ) / 2 := by
  have hlen : (panelWorldSamples meshUnit 2).length = 4 := by
    rw [meshUnit_world_two]
    rfl
  unfold calculatePanelShadowFactor
  rw [meshUnit_count_two, hlen]
  norm_num

/-- The classification reads SHADOWED exactly below one half. -/
theorem shadowStatusOf_shadowed_iff (sf : ℝ) :
    shadowStatusOf sf = "SHADOWED" ↔ sf < 0.5 := by
  unfold shadowStatusOf
  by_cases h1 : sf < 0.5
  · rw [if_pos h1]
    exact iff_of_true rfl h1
  · by_cases h2 : sf < 1
    · rw [if_neg h1, if_pos h2]
      exact iff_of_false (by decide) h1
    · rw [if_neg h1, if_neg h2]
      exact iff_of_false (by decide) h1

/-- The classification reads PARTIAL exactly on the interval from one
half, inclusive, to one, exclusive. -/
theorem shadowStatusOf_partial_iff (sf : ℝ) :
    shadowStatusOf sf = "PARTIAL" ↔ 0.5 ≤ sf ∧ sf < 1 := by
  unfold shadowStatusOf
  by_cases h1 : sf < 0.5
  · rw [if_pos h1]
    exact iff_of_false (by decide) fun hr => absurd hr.1 (not_le.mpr h1)
  · by_cases h2 : sf < 1
    · rw [if_neg h1, if_pos h2]
      exact iff_of_true rfl ⟨not_lt.mp h1, h2⟩
    · rw [if_neg h1, if_neg h2]
      exact iff_of_false (by decide) fun hr => absurd hr.2 h2

/-- For a shadow factor that never exceeds 1, the classification reads
CLEAR exactly at the value 1. -/
theorem shadowStatusOf_clear_iff (sf : ℝ) (hle : sf ≤ 1) :
    shadowStatusOf sf = "CLEAR" ↔ sf = 1 := by
  unfold shadowStatusOf
  by_cases h1 : sf < 0.5
  · rw [if_pos h1]
    refine iff_of_false (by decide) fun he => ?_
    rw [he] at h1
    norm_num at h1
  · by_cases h2 : sf < 1
    · rw [if_neg h1, if_pos h2]
      exact iff_of_false (by decide) fun he => lt_irrefl (1 : ℝ) (he ▸ h2)
    · rw [if_neg h1, if_neg h2]
      exact iff_of_true rfl (le_antisymm hle (not_lt.mp h2))

/-- C2: the pipeline output is exactly the clear-sky cosine-law
irradiance times the 4-sample shadow factor (roof excluded), and the
classification is SHADOWED exactly when the factor is below 0.5, PARTIAL
exactly on [0.5, 1), and CLEAR exactly at 1. -/
theorem panelIrradiancePipeline_spec (castRay : CastRay) (panel : Mesh) (sunVec : Vec3)
    (roofMeshes : List BuildingRec) :
    (panelIrradiancePipeline castRay panel sunVec roofMeshes).2.2
      = (panelIrradiancePipeline castRay panel sunVec roofMeshes).1
        * (panelIrradiancePipeline castRay panel sunVec roofMeshes).2.1
    ∧ (panelIrradiancePipeline castRay panel sunVec roofMeshes).1
      = calcIrradiance sunVec
          ((Vec3.transformDirection ⟨0, 0, 1⟩ (panel.updateMatrixWorld).matrixWorld).normalize)
    ∧ (panelIrradiancePipeline castRay panel sunVec roofMeshes).2.1
      = calculatePanelShadowFactor castRay panel.updateMatrixWorld sunVec roofMeshes 4
          panel.userData_roofMesh
    ∧ (shadowStatusOf (panelIrradiancePipeline castRay panel sunVec roofMeshes).2.1
        = "SHADOWED"
        ↔ (panelIrradiancePipeline castRay panel sunVec roofMeshes).2.1 < 0.5)
    ∧ (shadowStatusOf (panelIrradiancePipeline castRay panel sunVec roofMeshes).2.1
        = "PARTIAL"
        ↔ 0.5 ≤ (panelIrradiancePipeline castRay panel sunVec roofMeshes).2.1
          ∧ (panelIrradiancePipeline castRay panel sunVec roofMeshes).2.1 < 1)
    ∧ (shadowStatusOf (panelIrradiancePipeline castRay panel sunVec roofMeshes).2.1
        = "CLEAR"
        ↔ (panelIrradiancePipeline castRay panel sunVec roofMeshes).2.1 = 1) := by
  refine ⟨rfl, rfl, rfl, shadowStatusOf_shadowed_iff _, shadowStatusOf_partial_iff _,
    shadowStatusOf_clear_iff _ ?_⟩
  exact (calculatePanelShadowFactor_mem_unit castRay panel.updateMatrixWorld sunVec roofMeshes
    4 panel.userData_roofMesh).2

/-- C9 amended: one evaluation call leaves every field of the surface
except the cached world matrix unchanged; the cached world matrix is
refreshed from the position and rotation of the surface itself, so a
surface whose cache was already up to date is wholly unchanged. -/
theorem shadowFactorRun_frame (castRay : CastRay) (panelMesh : Mesh) (sunVec : Vec3)
    (buildingMeshes : List BuildingRec) (samplePoints : Nat) (excludeMesh : Option Nat) :
    (calculatePanelShadowFactorRun castRay panelMesh sunVec buildingMeshes samplePoints
        excludeMesh).2.position = panelMesh.position
    ∧ (calculatePanelShadowFactorRun castRay panelMesh sunVec buildingMeshes samplePoints
        excludeMesh).2.rotationScale = panelMesh.rotationScale
    ∧ (calculatePanelShadowFactorRun castRay panelMesh sunVec buildingMeshes samplePoints
        excludeMesh).2.bboxSize = panelMesh.bboxSize
    ∧ (calculatePanelShadowFactorRun castRay panelMesh sunVec buildingMeshes samplePoints
        excludeMesh).2.userData_normal = panelMesh.userData_normal
    ∧ (calculatePanelShadowFactorRun castRay panelMesh sunVec buildingMeshes samplePoints
        excludeMesh).2.userData_roofMesh = panelMesh.userData_roofMesh
    ∧ (calculatePanelShadowFactorRun castRay panelMesh sunVec buildingMeshes samplePoints
        excludeMesh).2.matrixWorld = panelMesh.composedMatrix
    ∧ (panelMesh.matrixWorld = panelMesh.composedMatrix →
        (calculatePanelShadowFactorRun castRay panelMesh sunVec buildingMeshes samplePoints
          excludeMesh).2 = panelMesh) := by
  refine ⟨rfl, rfl, rfl, rfl, rfl, rfl, fun h => ?_⟩
  show panelMesh.updateMatrixWorld = panelMesh
  unfold Mesh.updateMatrixWorld
  rw [← h]

/-- Witness for the amended C9: a surface with an up-to-date cached world
matrix comes back from the call unchanged. -/
theorem shadowFactorRun_frame_witness :
    (calculatePanelShadowFactorRun castRayHit meshUnit sunUp [bRec5] 4 none).2 = meshUnit :=
  (shadowFactorRun_frame castRayHit meshUnit sunUp [bRec5] 4 none).2.2.2.2.2.2 rfl

/-- C9 counterexample: a surface whose cached world matrix is stale with
respect to its own position is mutated by the call: the cached matrix
field changes. -/
theorem shadowFactorRun_mutates_cex :
    (calculatePanelShadowFactorRun castRayHit meshStale sunUp [bRec5] 4 none).2 ≠ meshStale := by
  intro h
  have h14 := congrArg (fun m => m.matrixWorld.m14) h
  norm_num [calculatePanelShadowFactorRun, Mesh.updateMatrixWorld, Mesh.composedMatrix,
    meshStale, idMat4] at h14

end
